import Mathlib

/-!
# Verification of the retirepy future-value projection engine

Shallow embedding of `src/retirepy/models.py`, `src/retirepy/utils.py` and
`src/retirepy/future_value.py`.

Modelling conventions:
* A calendar month (a `pd.Timestamp` normalized to the first of the month) is
  embedded as an absolute month index `m : ℕ` with `m = 12 * year + (month - 1)`,
  so `pd.date_range(start, end, freq="MS")` becomes the consecutive list
  `monthRange s e = [s, s+1, ..., e]` and `index.month` becomes `calMonth`.
* Python floats are embedded as exact rationals `ℚ` for the `utils.py` engine
  (all its arithmetic is field arithmetic), and as reals `ℝ` for
  `Investment.compound_interest` in `models.py`, whose `(1 + r/n) ** (n*1)`
  uses a non-integral float exponent `n = per_year / 12`.
* A `pd.Series` is embedded as a list of (month, value) pairs; a NaN cell is
  `Option.none`, so the `MoneyFlow.future_value` series carries `Option ℚ`
  values while the investment engines (whose loops fill every cell) carry
  plain values.
* A Python function that raises (pydantic `ValueError` from a validator, or the
  `IndexError` from `return_series.iloc[0] = ...` on an empty date range)
  is embedded as returning `Option.none`.
-/

/-- Embeds `index.month` of the absolute month index `m`: the calendar month 1..12. -/
def calMonth (m : ℕ) : ℕ := m % 12 + 1

/-- Embeds `pd.date_range(start=s, end=e, freq="MS")`: every month start from `s` to
`e` inclusive (empty when `e < s`). -/
def monthRange (s e : ℕ) : List ℕ := List.range' s (e + 1 - s)

/-- The dictionary in `FrequencyMeta.__init__` mapping `per_year` to the fixed
trigger-month list (`models.py` lines 21-26); `none` is the `KeyError` case,
which the `per_year` validator makes unreachable. -/
def triggerMonthsTable (per_year : ℕ) : Option (List ℕ) :=
  match per_year with
  | 12 => some [1, 2, 3, 4, 5, 6, 7, 8, 9, 10, 11, 12]
  | 4 => some [1, 4, 7, 10]
  | 2 => some [1, 7]
  | 1 => some [1]
  | _ => none

/-- The `FrequencyMeta` model (`models.py`): a named frequency with its events-per-year
count and derived trigger-month list. -/
structure FrequencyMeta where
  name : String
  per_year : ℕ
  trigger_months : List ℕ
deriving DecidableEq

/-- Constructing a `FrequencyMeta`: the `ensure_per_year_in_allowed` validator
(`models.py` lines 28-32) runs first and rejects `per_year ∉ {1,2,4,12}` with a
`ValueError`; then `__init__` derives `_trigger_months` from the table. -/
def FrequencyMeta.make (name : String) (per_year : ℕ) : Option FrequencyMeta :=
  if per_year ∈ ([1, 2, 4, 12] : List ℕ) then
    (triggerMonthsTable per_year).map (fun tm => ⟨name, per_year, tm⟩)
  else
    none

/-- The `FrequencyMeta.per_month` property: `per_year / 12` (float division). -/
def FrequencyMeta.per_month (fm : FrequencyMeta) : ℚ := (fm.per_year : ℚ) / 12

/-- The `FrequencyMeta.months_between` property: `12 // per_year`. -/
def FrequencyMeta.months_between (fm : FrequencyMeta) : ℕ := 12 / fm.per_year

/-- Embeds `MONTHLY_META = FrequencyMeta(name='Monthly', per_year=12)`. -/
def MONTHLY_META : FrequencyMeta :=
  ⟨"Monthly", 12, [1, 2, 3, 4, 5, 6, 7, 8, 9, 10, 11, 12]⟩

/-- Embeds `YEARLY_META = FrequencyMeta(name='Yearly', per_year=1)`. -/
def YEARLY_META : FrequencyMeta := ⟨"Yearly", 1, [1]⟩

/-- The `Frequency` enum (`models.py`): only `MONTHLY` and `YEARLY`. -/
inductive Frequency where
  | monthly
  | yearly
deriving DecidableEq

/-- The `Frequency.meta` property: the static lookup to the shared metadata. -/
def Frequency.meta : Frequency → FrequencyMeta
  | .monthly => MONTHLY_META
  | .yearly => YEARLY_META

/-- One iteration of the stepping loop shared verbatim by
`utils.compute_future_value_series`, `Investment.future_value` and
`Investment.future_value_old` (they differ only in the value of the
`compound_interest` factor): add the contribution before compounding when the
timing flag is set, multiply by the factor on compounding trigger months, add
the contribution afterwards otherwise. -/
def fvStep {α : Type} [Field α] (compound_interest contribution_amount : α)
    (contribution_trigger compounding_trigger : List ℕ) (at_start : Bool)
    (v : α) (month : ℕ) : α :=
  let contribute := decide (month ∈ contribution_trigger)
  let v1 := if contribute && at_start then v + contribution_amount else v
  let v2 := if decide (month ∈ compounding_trigger) then v1 * compound_interest else v1
  if contribute && !at_start then v2 + contribution_amount else v2

/-- The loop body of the stepping engines: starting from the running value `v`,
emit the updated running value for each month of the list in order. -/
def fvLoop {α : Type} (step : α → ℕ → α) : α → List ℕ → List α
  | _, [] => []
  | v, m :: rest =>
    let v2 := step v (calMonth m)
    v2 :: fvLoop step v2 rest

/-- Embeds `utils.compute_compound_interest`: `r = rate / per_year`, `n = 1`,
result `(1 + r / n) ** (n * 1)` (the exponent is the integer 1). -/
def compute_compound_interest (annual_interest_rate : ℚ)
    (compounding_frequency : Frequency) : ℚ :=
  let r := annual_interest_rate / (compounding_frequency.meta.per_year : ℚ)
  (1 + r / 1) ^ ((1 * 1 : ℕ))

/-- Embeds `utils.compute_future_value_series`: the month-stepping projection engine.
The first cell is set to the principal, every later cell is produced by
`fvStep` from the previous running value; an empty date range (end before
start) makes `return_series.iloc[0] = ...` raise, embedded as `none`. -/
def compute_future_value_series (start_month end_month : ℕ)
    (principal_investment : ℚ) (annual_interest_rate : ℚ)
    (compounding_frequency : Frequency) (contribution_amount : ℚ)
    (contribution_frequency : Frequency)
    (contribution_at_start_of_compound_period : Bool) :
    Option (List (ℕ × ℚ)) :=
  match monthRange start_month end_month with
  | [] => none
  | m0 :: rest =>
    let compound_interest :=
      compute_compound_interest annual_interest_rate compounding_frequency
    let values := principal_investment ::
      fvLoop
        (fvStep compound_interest contribution_amount
          contribution_frequency.meta.trigger_months
          compounding_frequency.meta.trigger_months
          contribution_at_start_of_compound_period)
        principal_investment rest
    some ((m0 :: rest).zip values)

/-- The `Investment.compound_interest` property (`models.py` lines 208-214):
`r = rate / 12.0`, `n = per_month = per_year / 12` (a float), and the result is
`(1 + r / n) ** (n * 1)` — a float power with, in general, a fractional
exponent, embedded with the real power `Real.rpow`. -/
noncomputable def Investment.compound_interest (annual_interest_rate : ℝ)
    (compounding_frequency : Frequency) : ℝ :=
  let r := annual_interest_rate / 12
  let n : ℝ := (compounding_frequency.meta.per_year : ℝ) / 12
  (1 + r / n) ^ (n * 1)

/-- Embeds `Investment.future_value` (`models.py` lines 216-253): the same stepping
loop as `utils.compute_future_value_series` but with the factor taken from the
`Investment.compound_interest` property. -/
noncomputable def Investment.future_value (start_month end_month : ℕ)
    (principal_investment annual_interest_rate : ℝ)
    (compounding_frequency : Frequency) (contribution_amount : ℝ)
    (contribution_frequency : Frequency)
    (contribution_at_start_of_compound_period : Bool) :
    Option (List (ℕ × ℝ)) :=
  match monthRange start_month end_month with
  | [] => none
  | m0 :: rest =>
    let values := principal_investment ::
      fvLoop
        (fvStep (Investment.compound_interest annual_interest_rate compounding_frequency)
          contribution_amount
          contribution_frequency.meta.trigger_months
          compounding_frequency.meta.trigger_months
          contribution_at_start_of_compound_period)
        principal_investment rest
    some ((m0 :: rest).zip values)

/-- The loop body of `Investment.future_value_old` (`models.py` lines 270-290):
identical to `fvStep` except that the factor
`(1.0 + annual_interest_rate / per_year)` is recomputed inline each iteration. -/
noncomputable def Investment.fvStepOld (annual_interest_rate : ℝ)
    (compounding_frequency : Frequency) (contribution_amount : ℝ)
    (contribution_trigger : List ℕ) (at_start : Bool) (v : ℝ) (month : ℕ) : ℝ :=
  let contribute := decide (month ∈ contribution_trigger)
  let v1 := if contribute && at_start then v + contribution_amount else v
  let v2 :=
    if decide (month ∈ compounding_frequency.meta.trigger_months) then
      v1 * (1 + annual_interest_rate / (compounding_frequency.meta.per_year : ℝ))
    else v1
  if contribute && !at_start then v2 + contribution_amount else v2

/-- Embeds `Investment.future_value_old` (`models.py` lines 255-292). -/
noncomputable def Investment.future_value_old (start_month end_month : ℕ)
    (principal_investment annual_interest_rate : ℝ)
    (compounding_frequency : Frequency) (contribution_amount : ℝ)
    (contribution_frequency : Frequency)
    (contribution_at_start_of_compound_period : Bool) :
    Option (List (ℕ × ℝ)) :=
  match monthRange start_month end_month with
  | [] => none
  | m0 :: rest =>
    let values := principal_investment ::
      fvLoop
        (Investment.fvStepOld annual_interest_rate compounding_frequency
          contribution_amount
          contribution_frequency.meta.trigger_months
          contribution_at_start_of_compound_period)
        principal_investment rest
    some ((m0 :: rest).zip values)

/-- The `MoneyFlow` model (`models.py` lines 72-94); `start_month`/`end_month`
are absolute month indices. -/
structure MoneyFlow where
  name : String
  amount : ℚ
  frequency : Frequency
  growth_rate : ℚ
  growth_frequency : Frequency
  start_month : ℕ
  end_month : ℕ
deriving DecidableEq

/-- Constructing a `MoneyFlow`: the
`ensure_growth_frequency_isnt_more_frequent_than_flow_frequency` validator
(`models.py` lines 87-94) rejects a growth frequency with more events per year
than the flow frequency. -/
def MoneyFlow.make (name : String) (amount : ℚ) (frequency : Frequency)
    (growth_rate : ℚ) (growth_frequency : Frequency)
    (start_month end_month : ℕ) : Option MoneyFlow :=
  if growth_frequency.meta.per_year > frequency.meta.per_year then none
  else some ⟨name, amount, frequency, growth_rate, growth_frequency,
    start_month, end_month⟩

/-- Embeds `pd.date_range(start, end, freq="YS")`: the year starts (January month
starts) lying inside `[s, e]`. -/
def yearStarts (s e : ℕ) : List ℕ :=
  (monthRange s e).filter (fun m => decide (calMonth m = 1))

/-- Embeds `Series.fillna(method="ffill")` over a (month, value) list: a NaN cell
takes the most recent non-NaN value at or before it, and stays NaN when every
earlier cell was NaN. -/
def ffillSeries : List (ℕ × Option ℚ) → Option ℚ → List (ℕ × Option ℚ)
  | [], _ => []
  | (m, some v) :: rest, _ => (m, some v) :: ffillSeries rest (some v)
  | (m, none) :: rest, last => (m, last) :: ffillSeries rest last

/-- Embeds `MoneyFlow.future_value` (`models.py` lines 96-168).  For yearly growth the
per-year amounts `p * (1 + r) ** t` are indexed by the year starts inside the
range; a yearly flow writes them at those months and fills the rest with 0.0,
a monthly flow writes them divided by 12.0 and forward-fills.  For monthly
growth every month `t` gets `amount * per_month * (1 + r) ** t` directly. -/
def MoneyFlow.future_value (start_month end_month : ℕ) (amount : ℚ)
    (frequency : Frequency) (growth_rate : ℚ) (growth_frequency : Frequency) :
    List (ℕ × Option ℚ) :=
  match growth_frequency with
  | .yearly =>
    let p := amount * (frequency.meta.per_year : ℚ)
    let a_df := ((yearStarts start_month end_month).enum).map
      (fun ti => (ti.2, p * (1 + growth_rate) ^ ti.1))
    match frequency with
    | .yearly =>
      let assigned := (monthRange start_month end_month).map
        (fun m => (m, List.lookup m a_df))
      assigned.map (fun cell => (cell.1, some (cell.2.getD 0)))
    | .monthly =>
      let assigned := (monthRange start_month end_month).map
        (fun m => (m, (List.lookup m a_df).map (fun v => v / 12)))
      ffillSeries assigned none
  | .monthly =>
    let p := amount * ((frequency.meta.per_year : ℚ) / 12)
    ((monthRange start_month end_month).enum).map
      (fun ti => (ti.2, some (p * (1 + growth_rate) ^ ti.1)))

/-- Embeds `round(x, 2)`: round to two decimal places. -/
def round2 (q : ℚ) : ℚ := (round (q * 100) : ℤ) / 100

/-- The final cell of a projection, `fv_series[-1]` in `test_utils.py`. -/
def finalValue (series : Option (List (ℕ × ℚ))) : Option ℚ :=
  series.bind (fun l => (l.map Prod.snd).getLast?)

/-! ## Basic facts about the embedded date range and loop -/

theorem monthRange_length (s e : ℕ) : (monthRange s e).length = e + 1 - s := by
  simp [monthRange]

theorem monthRange_eq_nil_iff {s e : ℕ} : monthRange s e = [] ↔ e < s := by
  simp [monthRange]
  omega

theorem monthRange_cons {s e : ℕ} (h : s ≤ e) :
    monthRange s e = s :: monthRange (s + 1) e := by
  have h1 : e + 1 - s = (e - s) + 1 := by omega
  have h2 : e + 1 - (s + 1) = e - s := by omega
  rw [monthRange, monthRange, h1, h2, List.range'_succ]

theorem mem_monthRange {s e m : ℕ} : m ∈ monthRange s e ↔ s ≤ m ∧ m ≤ e := by
  simp [monthRange]
  omega

theorem monthRange_get {s e i : ℕ} (h : i < (monthRange s e).length) :
    (monthRange s e).get ⟨i, h⟩ = s + i := by
  simp [monthRange, List.get_eq_getElem]

theorem fvLoop_length {α : Type} (step : α → ℕ → α) :
    ∀ (v : α) (ms : List ℕ), (fvLoop step v ms).length = ms.length
  | _, [] => rfl
  | v, m :: rest => by
    simp only [fvLoop, List.length_cons]
    rw [fvLoop_length]

theorem fvLoop_cons_get {α : Type} (step : α → ℕ → α) :
    ∀ (ms : List ℕ) (v : α) (j : ℕ) (hj : j < ms.length)
      (h1 : j + 1 < (v :: fvLoop step v ms).length)
      (h2 : j < (v :: fvLoop step v ms).length),
      (v :: fvLoop step v ms).get ⟨j + 1, h1⟩ =
        step ((v :: fvLoop step v ms).get ⟨j, h2⟩) (calMonth (ms.get ⟨j, hj⟩))
  | [], _, j, hj, _, _ => absurd hj (by simp)
  | m :: rest, v, 0, hj, h1, h2 => by
    simp [fvLoop]
  | m :: rest, v, j + 1, hj, h1, h2 => by
    have hj2 : j < rest.length := by simpa using hj
    simp only [fvLoop, List.get_cons_succ]
    exact fvLoop_cons_get step rest (step v (calMonth m)) j hj2
      (by simp [fvLoop_length]; omega) (by simp [fvLoop_length]; omega)

theorem compute_compound_interest_eq (r : ℚ) (kf : Frequency) :
    compute_compound_interest r kf = 1 + r / (kf.meta.per_year : ℚ) := by
  simp [compute_compound_interest]

theorem compute_future_value_series_eq (s e : ℕ) (P r c : ℚ) (kf cf : Frequency)
    (b : Bool) (h : s ≤ e) :
    compute_future_value_series s e P r kf c cf b =
      some ((monthRange s e).zip
        (P :: fvLoop
          (fvStep (compute_compound_interest r kf) c cf.meta.trigger_months
            kf.meta.trigger_months b)
          P (monthRange (s + 1) e))) := by
  unfold compute_future_value_series
  rw [monthRange_cons h]

/-! ## C5: FrequencyMeta construction -/

/-- C5: `FrequencyMeta` construction with `eventsPerYear` 12, 4, 2, 1
yields trigger-month lists `[1..12]`, `[1,4,7,10]`, `[1,7]`, `[1]`; for every
successful construction the trigger-month list has exactly `eventsPerYear`
elements evenly spaced `12 / eventsPerYear` apart; and construction with any
other `eventsPerYear` fails (the `InvalidFrequencyError` of the spec). -/
theorem C5_frequency_meta (name : String) (py : ℕ) :
    (py = 12 → FrequencyMeta.make name py =
      some ⟨name, 12, [1, 2, 3, 4, 5, 6, 7, 8, 9, 10, 11, 12]⟩) ∧
    (py = 4 → FrequencyMeta.make name py = some ⟨name, 4, [1, 4, 7, 10]⟩) ∧
    (py = 2 → FrequencyMeta.make name py = some ⟨name, 2, [1, 7]⟩) ∧
    (py = 1 → FrequencyMeta.make name py = some ⟨name, 1, [1]⟩) ∧
    (∀ fm : FrequencyMeta, FrequencyMeta.make name py = some fm →
      fm.per_year = py ∧ fm.trigger_months.length = py ∧
      fm.months_between = 12 / py ∧
      List.Chain' (fun a b => b = a + fm.months_between) fm.trigger_months) ∧
    (py ∉ ([1, 2, 4, 12] : List ℕ) → FrequencyMeta.make name py = none) := by
  refine ⟨?_, ?_, ?_, ?_, ?_, ?_⟩
  · rintro rfl; rfl
  · rintro rfl; rfl
  · rintro rfl; rfl
  · rintro rfl; rfl
  · intro fm hfm
    have hmem : py ∈ ([1, 2, 4, 12] : List ℕ) := by
      by_contra hn
      simp [FrequencyMeta.make, hn] at hfm
    fin_cases hmem <;>
      · simp [FrequencyMeta.make, triggerMonthsTable] at hfm
        subst hfm
        exact ⟨rfl, rfl, rfl, by simp [FrequencyMeta.months_between]⟩
  · intro h
    simp [FrequencyMeta.make, h]

theorem C5_witness : FrequencyMeta.make "Custom" 5 = none :=
  (C5_frequency_meta "Custom" 5).2.2.2.2.2 (by decide)

/-! ## C6: empty range failure -/

/-- C6: a projection request whose end month strictly precedes its start
month fails (empty `pd.date_range`, so the engine raises before producing any
entry): the embedded engine returns `none`, never a partial result. -/
theorem C6_invalid_range (s e : ℕ) (P r c : ℚ) (kf cf : Frequency) (b : Bool)
    (h : e < s) :
    compute_future_value_series s e P r kf c cf b = none := by
  unfold compute_future_value_series
  rw [monthRange_eq_nil_iff.mpr h]

theorem C6_witness : compute_future_value_series 5 2 1 1 .monthly 1 .monthly true = none :=
  C6_invalid_range 5 2 1 1 1 .monthly .monthly true (by decide)

/-! ## C7: growth-frequency compatibility validator -/

/-- C7: `MoneyFlow` construction fails exactly when the growth frequency
has strictly more events per year than the flow frequency (the
`IncompatibleGrowthFrequencyError` of the spec), and succeeds on this check
whenever growth events-per-year is at most flow events-per-year. -/
theorem C7_growth_frequency_check (name : String) (amount growth_rate : ℚ)
    (frequency growth_frequency : Frequency) (s e : ℕ) :
    (MoneyFlow.make name amount frequency growth_rate growth_frequency s e = none ↔
      frequency.meta.per_year < growth_frequency.meta.per_year) ∧
    ((MoneyFlow.make name amount frequency growth_rate growth_frequency s e).isSome ↔
      growth_frequency.meta.per_year ≤ frequency.meta.per_year) := by
  unfold MoneyFlow.make
  constructor <;> · split <;> simp_all

/-! ## C2: shape of the projection result -/

theorem compute_future_value_series_none {s e : ℕ} (P r c : ℚ) (kf cf : Frequency)
    (b : Bool) (h : e < s) :
    compute_future_value_series s e P r kf c cf b = none := by
  unfold compute_future_value_series
  rw [monthRange_eq_nil_iff.mpr h]

/-- C2: whenever start ≤ end, the projection succeeds with an ordered
sequence containing exactly one entry per calendar month in [start, end]
inclusive, whose months strictly increase with the index, and whose first
entry's value is exactly the principal, for every choice of principal, rate,
contribution amount, frequencies and timing flag. -/
theorem C2_series_shape (s e : ℕ) (P r c : ℚ) (kf cf : Frequency) (b : Bool)
    (h : s ≤ e) :
    ∃ l, compute_future_value_series s e P r kf c cf b = some l ∧
      l.length = e + 1 - s ∧
      l.map Prod.fst = monthRange s e ∧
      (∀ (i j : ℕ) (hi : i < l.length) (hj : j < l.length), i < j →
        (l.get ⟨i, hi⟩).1 < (l.get ⟨j, hj⟩).1) ∧
      ∀ h0 : 0 < l.length, l.get ⟨0, h0⟩ = (s, P) := by
  refine ⟨_, compute_future_value_series_eq s e P r c kf cf b h, ?_, ?_, ?_, ?_⟩
  · simp [monthRange_length, fvLoop_length]
    omega
  · apply List.map_fst_zip
    simp [monthRange_length, fvLoop_length]
    omega
  · intro i j hi hj hij
    rw [List.get_eq_getElem, List.get_eq_getElem]
    simp only [List.getElem_zip, monthRange, List.getElem_range']
    omega
  · intro h0
    rw [List.get_eq_getElem]
    simp [monthRange, List.getElem_range']

theorem C2_witness :
    ∃ l, compute_future_value_series 3 5 7 0 .yearly 2 .monthly false = some l ∧
      l.length = 5 + 1 - 3 ∧
      l.map Prod.fst = monthRange 3 5 ∧
      (∀ (i j : ℕ) (hi : i < l.length) (hj : j < l.length), i < j →
        (l.get ⟨i, hi⟩).1 < (l.get ⟨j, hj⟩).1) ∧
      ∀ h0 : 0 < l.length, l.get ⟨0, h0⟩ = (3, 7) :=
  C2_series_shape 3 5 7 0 2 .yearly .monthly false (by decide)

/-! ## C1: the stepping recurrence -/

theorem fvStep_eq {α : Type} [Field α] (ci c : α) (ctm ktm : List ℕ) (b : Bool)
    (v : α) (month : ℕ) :
    fvStep ci c ctm ktm b v month =
      (let v1 := if month ∈ ctm ∧ b = true then v + c else v
       let v2 := if month ∈ ktm then v1 * ci else v1
       if month ∈ ctm ∧ b = false then v2 + c else v2) := by
  cases b <;> by_cases hp : month ∈ ctm <;> by_cases hq : month ∈ ktm <;>
    simp [fvStep, hp, hq]

theorem series_get_succ {α : Type} (step : α → ℕ → α) (s e : ℕ) (P : α) (j : ℕ)
    (h1 : j + 1 < ((monthRange s e).zip
      (P :: fvLoop step P (monthRange (s + 1) e))).length)
    (h0 : j < ((monthRange s e).zip
      (P :: fvLoop step P (monthRange (s + 1) e))).length) :
    (((monthRange s e).zip (P :: fvLoop step P (monthRange (s + 1) e))).get
        ⟨j + 1, h1⟩).2 =
      step ((((monthRange s e).zip
          (P :: fvLoop step P (monthRange (s + 1) e))).get ⟨j, h0⟩).2)
        (calMonth (s + (j + 1))) := by
  have hj' : j < (monthRange (s + 1) e).length := by
    simp [monthRange_length, fvLoop_length] at h1 ⊢
    omega
  have key := fvLoop_cons_get step (monthRange (s + 1) e) P j hj'
    (by simp [fvLoop_length]; omega) (by simp [fvLoop_length]; omega)
  rw [monthRange_get hj'] at key
  have harith : s + 1 + j = s + (j + 1) := by omega
  rw [harith] at key
  rw [List.get_eq_getElem, List.get_eq_getElem] at key ⊢
  simp only [List.getElem_zip]
  exact key

/-- C1: in any successful projection, each entry after the first is
computed from the previous entry's value by (1) adding the contribution when
the calendar month is a contribution trigger month and the timing flag is set,
(2) multiplying by the constant per-period factor
`1 + annualRate / compoundingEventsPerYear` when the calendar month is a
compounding trigger month, (3) adding the contribution when the month is a
contribution trigger month and the flag is unset. -/
theorem C1_step_recurrence (s e : ℕ) (P r c : ℚ) (kf cf : Frequency) (b : Bool)
    (l : List (ℕ × ℚ))
    (hl : compute_future_value_series s e P r kf c cf b = some l)
    (j mj mj1 : ℕ) (vj vj1 : ℚ)
    (hj : l[j]? = some (mj, vj)) (hj1 : l[j + 1]? = some (mj1, vj1)) :
    vj1 =
      (let month := calMonth (s + (j + 1))
       let v1 := if month ∈ cf.meta.trigger_months ∧ b = true then vj + c
         else vj
       let v2 := if month ∈ kf.meta.trigger_months then
           v1 * (1 + r / (kf.meta.per_year : ℚ))
         else v1
       if month ∈ cf.meta.trigger_months ∧ b = false then v2 + c else v2) := by
  have hse : s ≤ e := by
    by_contra hx
    rw [compute_future_value_series_none P r c kf cf b (by omega)] at hl
    exact Option.noConfusion hl
  rw [compute_future_value_series_eq s e P r c kf cf b hse] at hl
  injection hl with hl
  subst hl
  obtain ⟨hb1, he1⟩ := List.getElem?_eq_some.mp hj1
  obtain ⟨hb0, he0⟩ := List.getElem?_eq_some.mp hj
  have key := series_get_succ
    (fvStep (compute_compound_interest r kf) c cf.meta.trigger_months
      kf.meta.trigger_months b) s e P j hb1 hb0
  rw [List.get_eq_getElem, List.get_eq_getElem, he1, he0] at key
  rw [show vj1 = ((mj1, vj1).2 : ℚ) from rfl, key, fvStep_eq,
    compute_compound_interest_eq]

theorem C1_witness :
    (220 : ℚ) =
      (let month := calMonth (0 + (0 + 1))
       let v1 := if month ∈ Frequency.monthly.meta.trigger_months ∧ true = true
         then (100 : ℚ) + 10 else 100
       let v2 := if month ∈ Frequency.monthly.meta.trigger_months then
           v1 * (1 + 12 / (Frequency.monthly.meta.per_year : ℚ))
         else v1
       if month ∈ Frequency.monthly.meta.trigger_months ∧ true = false
         then v2 + 10 else v2) :=
  C1_step_recurrence 0 1 100 12 10 .monthly .monthly true
    [(0, 100), (1, 220)]
    (by
      have h1 : monthRange 0 1 = [0, 1] := by decide
      unfold compute_future_value_series
      rw [h1]
      norm_num [fvLoop, fvStep, calMonth, compute_compound_interest,
        Frequency.meta, MONTHLY_META])
    0 0 1 100 220 (by decide) (by decide)

/-! ## Final values as folds -/

theorem cons_fvLoop_getLast {α : Type} (step : α → ℕ → α) :
    ∀ (ms : List ℕ) (v : α),
      (v :: fvLoop step v ms).getLast? =
        some (ms.foldl (fun a m => step a (calMonth m)) v)
  | [], _ => rfl
  | m :: rest, v => by
    simp only [fvLoop, List.getLast?_cons_cons, List.foldl_cons]
    exact cons_fvLoop_getLast step rest (step v (calMonth m))

theorem finalValue_eq_foldl (s e : ℕ) (P r c : ℚ) (kf cf : Frequency) (b : Bool)
    (h : s ≤ e) :
    finalValue (compute_future_value_series s e P r kf c cf b) =
      some ((monthRange (s + 1) e).foldl
        (fun v m => fvStep (compute_compound_interest r kf) c
          cf.meta.trigger_months kf.meta.trigger_months b v (calMonth m)) P) := by
  rw [compute_future_value_series_eq s e P r c kf cf b h]
  unfold finalValue
  rw [Option.some_bind, List.map_snd_zip]
  · exact cons_fvLoop_getLast _ _ _
  · simp [monthRange_length, fvLoop_length]
    omega

/-! ## C8: the timing flag is load-bearing -/

theorem fv_fold_diff (f c : ℚ) (ctm ktm : List ℕ) (hf : 0 < f) :
    ∀ (ms : List ℕ) (vT vF sa : ℚ), vT - vF = c * (f - 1) * sa → 0 ≤ sa →
      ∃ sa2 : ℚ,
        ms.foldl (fun v m => fvStep f c ctm ktm true v (calMonth m)) vT -
            ms.foldl (fun v m => fvStep f c ctm ktm false v (calMonth m)) vF =
          c * (f - 1) * sa2 ∧ 0 ≤ sa2 ∧
        ((0 < sa ∨ ∃ m ∈ ms, calMonth m ∈ ctm ∧ calMonth m ∈ ktm) → 0 < sa2)
  | [], vT, vF, sa, hd, hs => by
    refine ⟨sa, by simpa using hd, hs, ?_⟩
    rintro (h | ⟨m, hm, _⟩)
    · exact h
    · simp at hm
  | m :: rest, vT, vF, sa, hd, hs => by
    simp only [List.foldl_cons]
    by_cases hp : calMonth m ∈ ctm <;> by_cases hq : calMonth m ∈ ktm
    · -- contribution and compounding coincide
      have hT : fvStep f c ctm ktm true vT (calMonth m) = (vT + c) * f := by
        simp [fvStep, hp, hq]
      have hF : fvStep f c ctm ktm false vF (calMonth m) = vF * f + c := by
        simp [fvStep, hp, hq]
      rw [hT, hF]
      obtain ⟨sa2, h1, h2, h3⟩ := fv_fold_diff f c ctm ktm hf rest
        ((vT + c) * f) (vF * f + c) (sa * f + 1)
        (by linear_combination f * hd)
        (by nlinarith [mul_nonneg hs hf.le])
      refine ⟨sa2, h1, h2, fun _ => h3 (Or.inl (by nlinarith [mul_nonneg hs hf.le]))⟩
    · -- contribution only
      have hT : fvStep f c ctm ktm true vT (calMonth m) = vT + c := by
        simp [fvStep, hp, hq]
      have hF : fvStep f c ctm ktm false vF (calMonth m) = vF + c := by
        simp [fvStep, hp, hq]
      rw [hT, hF]
      obtain ⟨sa2, h1, h2, h3⟩ := fv_fold_diff f c ctm ktm hf rest
        (vT + c) (vF + c) sa (by linear_combination hd) hs
      refine ⟨sa2, h1, h2, ?_⟩
      rintro (h | ⟨m2, hm2, hco⟩)
      · exact h3 (Or.inl h)
      · rcases List.mem_cons.mp hm2 with rfl | hm2
        · exact absurd hco.2 hq
        · exact h3 (Or.inr ⟨m2, hm2, hco⟩)
    · -- compounding only
      have hT : fvStep f c ctm ktm true vT (calMonth m) = vT * f := by
        simp [fvStep, hp, hq]
      have hF : fvStep f c ctm ktm false vF (calMonth m) = vF * f := by
        simp [fvStep, hp, hq]
      rw [hT, hF]
      obtain ⟨sa2, h1, h2, h3⟩ := fv_fold_diff f c ctm ktm hf rest
        (vT * f) (vF * f) (sa * f)
        (by linear_combination f * hd) (mul_nonneg hs hf.le)
      refine ⟨sa2, h1, h2, ?_⟩
      rintro (h | ⟨m2, hm2, hco⟩)
      · exact h3 (Or.inl (by positivity))
      · rcases List.mem_cons.mp hm2 with rfl | hm2
        · exact absurd hco.1 hp
        · exact h3 (Or.inr ⟨m2, hm2, hco⟩)
    · -- neither
      have hT : fvStep f c ctm ktm true vT (calMonth m) = vT := by
        simp [fvStep, hp, hq]
      have hF : fvStep f c ctm ktm false vF (calMonth m) = vF := by
        simp [fvStep, hp, hq]
      rw [hT, hF]
      obtain ⟨sa2, h1, h2, h3⟩ := fv_fold_diff f c ctm ktm hf rest vT vF sa hd hs
      refine ⟨sa2, h1, h2, ?_⟩
      rintro (h | ⟨m2, hm2, hco⟩)
      · exact h3 (Or.inl h)
      · rcases List.mem_cons.mp hm2 with rfl | hm2
        · exact absurd hco.1 hp
        · exact h3 (Or.inr ⟨m2, hm2, hco⟩)

/-- C8 (amended): toggling `contributeBeforeCompounding` changes the final
value whenever some month after the first is both a contribution and a
compounding trigger month, provided additionally that the contribution amount
is nonzero, the annual rate is nonzero, and the per-period factor
`1 + annualRate / compoundingEventsPerYear` is positive.  (The extra
provisos are forced: with a zero contribution — or a zero rate — the two runs
coincide, see the counterexample.) -/
theorem C8_timing_flag (s e : ℕ) (P r c : ℚ) (kf cf : Frequency)
    (h : s ≤ e) (hc : c ≠ 0) (hr : r ≠ 0)
    (hpos : 0 < 1 + r / (kf.meta.per_year : ℚ))
    (hco : ∃ m, s + 1 ≤ m ∧ m ≤ e ∧ calMonth m ∈ cf.meta.trigger_months ∧
      calMonth m ∈ kf.meta.trigger_months) :
    finalValue (compute_future_value_series s e P r kf c cf true) ≠
      finalValue (compute_future_value_series s e P r kf c cf false) := by
  rw [finalValue_eq_foldl s e P r c kf cf true h,
    finalValue_eq_foldl s e P r c kf cf false h]
  intro hEq
  rw [Option.some_inj, compute_compound_interest_eq] at hEq
  obtain ⟨sa2, hdiff, hsa2, hposa⟩ := fv_fold_diff
    (1 + r / (kf.meta.per_year : ℚ)) c cf.meta.trigger_months
    kf.meta.trigger_months hpos (monthRange (s + 1) e) P P 0 (by ring)
    (le_refl 0)
  obtain ⟨m, hm1, hm2, hmc, hmk⟩ := hco
  have hmem : m ∈ monthRange (s + 1) e := mem_monthRange.mpr ⟨hm1, hm2⟩
  have hsa2pos : 0 < sa2 := hposa (Or.inr ⟨m, hmem, hmc, hmk⟩)
  have hfm1 : (1 + r / (kf.meta.per_year : ℚ)) - 1 ≠ 0 := by
    have hpy : (kf.meta.per_year : ℚ) ≠ 0 := by
      cases kf <;> norm_num [Frequency.meta, MONTHLY_META, YEARLY_META]
    simpa using div_ne_zero hr hpy
  rw [hEq, sub_self] at hdiff
  exact mul_ne_zero (mul_ne_zero hc hfm1) (ne_of_gt hsa2pos) hdiff.symm

theorem C8_witness :
    finalValue (compute_future_value_series 0 1 0 12 .monthly 1 .monthly true) ≠
      finalValue (compute_future_value_series 0 1 0 12 .monthly 1 .monthly false) :=
  C8_timing_flag 0 1 0 12 1 .monthly .monthly (by decide) (by norm_num)
    (by norm_num)
    (by norm_num [Frequency.meta, MONTHLY_META])
    ⟨1, by decide, by decide, by decide, by decide⟩

/-- C8 is false exactly as stated: it quantifies over every contribution
amount, but with contribution amount 0 the two timing conventions give equal
final values even though contribution and compounding coincide on a month in
range. -/
theorem C8_counterexample :
    (∃ m, 0 + 1 ≤ m ∧ m ≤ 1 ∧ calMonth m ∈ Frequency.monthly.meta.trigger_months ∧
      calMonth m ∈ Frequency.monthly.meta.trigger_months) ∧
    finalValue (compute_future_value_series 0 1 100 12 .monthly 0 .monthly true) =
      finalValue (compute_future_value_series 0 1 100 12 .monthly 0 .monthly false) := by
  constructor
  · exact ⟨1, by decide, by decide, by decide, by decide⟩
  · have h1 : monthRange 1 1 = [1] := by decide
    rw [finalValue_eq_foldl 0 1 100 12 0 .monthly .monthly true (by decide),
      finalValue_eq_foldl 0 1 100 12 0 .monthly .monthly false (by decide), h1]
    norm_num [fvStep, calMonth, compute_compound_interest, Frequency.meta,
      MONTHLY_META]

/-! ## C9: the concrete ten-year scenario -/

theorem c9_year_step (a : ℕ) (ha : a % 12 = 1) (v : ℚ) :
    (List.range' a 12).foldl
      (fun v2 m => fvStep (compute_compound_interest (7 / 100) Frequency.yearly)
        100 Frequency.monthly.meta.trigger_months
        Frequency.yearly.meta.trigger_months true v2 (calMonth m)) v =
      (v + 1200) * (107 / 100) := by
  have hcal : ∀ k : ℕ, calMonth (a + k) = (1 + k) % 12 + 1 := by
    intro k
    simp [calMonth]
    omega
  have hcal0 : calMonth a = 2 := by
    simp [calMonth]
    omega
  rw [show List.range' a 12 =
    [a, a + 1, a + 2, a + 3, a + 4, a + 5, a + 6, a + 7, a + 8, a + 9, a + 10,
      a + 11] from rfl]
  simp only [List.foldl_cons, List.foldl_nil, hcal, hcal0]
  norm_num [fvStep, compute_compound_interest, Frequency.meta, MONTHLY_META,
    YEARLY_META]
  ring

/-- C9 fails on the code: for principal 12000, rate 0.07, yearly
compounding, monthly contribution 100 at start of period, over the 121 months
Jan 2022 .. Jan 2032, the engine's final value rounds to 41346.14, while the
spec and the repo's own test table (`test_utils.py`, case "yearly compounding
interest with monthly contribution at start of period") expect 40814.20. -/
theorem C9_final_value :
    (finalValue (compute_future_value_series 24264 24384 12000 (7 / 100)
        Frequency.yearly 100 Frequency.monthly true)).map round2 =
      some (4134614 / 100) ∧
    (4134614 / 100 : ℚ) ≠ 4081420 / 100 := by
  constructor
  · rw [finalValue_eq_foldl 24264 24384 12000 (7 / 100) 100 Frequency.yearly
      Frequency.monthly true (by norm_num)]
    have hmr : monthRange 24265 24384 =
      List.range' 24265 12 ++
      List.range' 24277 12 ++
      List.range' 24289 12 ++
      List.range' 24301 12 ++
      List.range' 24313 12 ++
      List.range' 24325 12 ++
      List.range' 24337 12 ++
      List.range' 24349 12 ++
      List.range' 24361 12 ++
      List.range' 24373 12 := by decide
    rw [hmr]
    simp only [List.foldl_append]
    rw [c9_year_step 24265 (by norm_num),
    c9_year_step 24277 (by norm_num),
    c9_year_step 24289 (by norm_num),
    c9_year_step 24301 (by norm_num),
    c9_year_step 24313 (by norm_num),
    c9_year_step 24325 (by norm_num),
    c9_year_step 24337 (by norm_num),
    c9_year_step 24349 (by norm_num),
    c9_year_step 24361 (by norm_num),
    c9_year_step 24373 (by norm_num)]
    norm_num [round2, round_eq]
  · norm_num

/-! ## C3: the two stepping-loop variants -/

theorem investment_compound_interest_monthly (r : ℝ) :
    Investment.compound_interest r .monthly = 1 + r / 12 := by
  unfold Investment.compound_interest
  norm_num [Frequency.meta, MONTHLY_META]

theorem fvStepOld_eq (r : ℝ) (kf : Frequency) (c : ℝ) (ctm : List ℕ) (b : Bool) :
    Investment.fvStepOld r kf c ctm b =
      fvStep (1 + r / (kf.meta.per_year : ℝ)) c ctm kf.meta.trigger_months b := by
  funext v month
  rfl

/-- C3 (amended): `Investment.future_value` and
`Investment.future_value_old` agree for every request whose compounding
frequency is Monthly; for Yearly compounding they disagree, because the
`compound_interest` property evaluates to `(1 + rate) ** (1/12)` there while
the old loop multiplies by `1 + rate` (see the counterexample). -/
theorem C3_variants_agree_monthly (s e : ℕ) (P r c : ℝ) (cf : Frequency)
    (b : Bool) :
    Investment.future_value s e P r .monthly c cf b =
      Investment.future_value_old s e P r .monthly c cf b := by
  have hstep :
      fvStep (Investment.compound_interest r .monthly) c cf.meta.trigger_months
          Frequency.monthly.meta.trigger_months b =
        Investment.fvStepOld r .monthly c cf.meta.trigger_months b := by
    rw [fvStepOld_eq, investment_compound_interest_monthly]
    norm_num [Frequency.meta, MONTHLY_META]
  unfold Investment.future_value Investment.future_value_old
  cases h : monthRange s e with
  | nil => rfl
  | cons m0 rest => rw [hstep]

/-- C3 is false as stated: the two variants are not functionally
equivalent.  With yearly compounding, rate 0.07, zero contribution, over the
two months Dec..Jan, `future_value` multiplies by
`(1 + 0.07) ** (1/12)` in January while `future_value_old` multiplies by
`1 + 0.07`, so the output sequences differ. -/
theorem C3_counterexample :
    Investment.future_value 11 12 12000 (7 / 100) .yearly 0 .yearly true ≠
      Investment.future_value_old 11 12 12000 (7 / 100) .yearly 0 .yearly true := by
  have hmr : monthRange 11 12 = [11, 12] := by decide
  have hci : Investment.compound_interest (7 / 100) .yearly =
      ((107 : ℝ) / 100) ^ ((1 : ℝ) / 12) := by
    unfold Investment.compound_interest
    norm_num [Frequency.meta, YEARLY_META]
  intro hEq
  unfold Investment.future_value Investment.future_value_old at hEq
  rw [hmr] at hEq
  simp only [hci, fvLoop, fvStep, Investment.fvStepOld, calMonth,
    Option.some_inj] at hEq
  norm_num [Frequency.meta, YEARLY_META] at hEq
  have hlt : ((107 : ℝ) / 100) ^ ((1 : ℝ) / 12) < ((107 : ℝ) / 100) ^ (1 : ℝ) :=
    Real.rpow_lt_rpow_of_exponent_lt (by norm_num) (by norm_num)
  rw [Real.rpow_one] at hlt
  have hlt2 : (12000 : ℝ) * (((107 : ℝ) / 100) ^ ((1 : ℝ) / 12)) < 12840 := by
    nlinarith [hlt]
  exact absurd hEq (ne_of_lt hlt2)

/-! ## Lookup and forward-fill machinery for the MoneyFlow series -/

theorem lookup_map_self {β : Type} (f : ℕ → β) :
    ∀ (ms : List ℕ) (m : ℕ), m ∈ ms →
      List.lookup m (ms.map (fun k => (k, f k))) = some (f m)
  | [], m, hm => absurd hm (by simp)
  | k :: rest, m, hm => by
    by_cases hk : m = k
    · subst hk
      simp [List.lookup_cons]
    · have hbeq : (m == k) = false := beq_false_of_ne hk
      simp only [List.map_cons, List.lookup_cons, hbeq]
      rcases List.mem_cons.mp hm with rfl | hm2
      · exact absurd rfl hk
      · exact lookup_map_self f rest m hm2

theorem lookup_enumFrom_map_none {β : Type} (f : ℕ → β) :
    ∀ (js : List ℕ) (k m : ℕ), m ∉ js →
      List.lookup m ((js.enumFrom k).map (fun ti => (ti.2, f ti.1))) = none
  | [], _, _, _ => rfl
  | j :: rest, k, m, hm => by
    have hj : m ≠ j := fun h => hm (h ▸ List.mem_cons_self j rest)
    have hbeq : (m == j) = false := beq_false_of_ne hj
    simp only [List.enumFrom_cons, List.map_cons, List.lookup_cons, hbeq]
    exact lookup_enumFrom_map_none f rest (k + 1) m
      (fun h => hm (List.mem_cons_of_mem _ h))

theorem lookup_enumFrom_range12 {β : Type} (f : ℕ → β) :
    ∀ (Y a k m : ℕ), a ≤ m → m < a + 12 * Y → (m - a) % 12 = 0 →
      List.lookup m (((List.range' a Y 12).enumFrom k).map
        (fun ti => (ti.2, f ti.1))) = some (f (k + (m - a) / 12))
  | 0, a, k, m, h1, h2, _ => by omega
  | Y + 1, a, k, m, h1, h2, h3 => by
    rw [List.range'_succ]
    by_cases hm : m = a
    · subst hm
      simp [List.enumFrom_cons, List.lookup_cons]
    · have hbeq : (m == a) = false := beq_false_of_ne hm
      simp only [List.enumFrom_cons, List.map_cons, List.lookup_cons, hbeq]
      have h1' : a + 12 ≤ m := by omega
      have h3' : (m - (a + 12)) % 12 = 0 := by omega
      rw [lookup_enumFrom_range12 f Y (a + 12) (k + 1) m h1' (by omega) h3']
      congr 2
      omega

theorem ffill_all_none :
    ∀ (l1 l2 : List (ℕ × Option ℚ)), (∀ p ∈ l1, p.2 = none) →
      ffillSeries (l1 ++ l2) none = l1 ++ ffillSeries l2 none
  | [], _, _ => rfl
  | (m, o) :: rest, l2, h => by
    have ho : o = none := h (m, o) (List.mem_cons_self _ _)
    subst ho
    simp only [List.cons_append, ffillSeries, List.append_eq]
    rw [ffill_all_none rest l2 (fun p hp => h p (List.mem_cons_of_mem _ hp))]

theorem monthRange_append {s m e : ℕ} (h1 : s ≤ m) (h2 : m ≤ e) :
    monthRange s e = monthRange s m ++ monthRange (m + 1) e := by
  unfold monthRange
  have hx := List.range'_append_1 s (m + 1 - s) (e + 1 - (m + 1))
  rw [show s + (m + 1 - s) = m + 1 by omega] at hx
  rw [show e + 1 - s = (e + 1 - (m + 1)) + (m + 1 - s) by omega, ← hx]

/-! ## C10: leading NaN cells for non-January starts -/

/-- C10: for a Yearly-growth, Monthly-flow projection, every month of the
range through which no January has yet occurred receives no value: the year
amounts are anchored at the year starts inside the range, and the forward fill
leaves every cell before the first anchor NaN, so the series is not a total
(month, value) map.  (For a start month that is a January the premise is
vacuous.) -/
theorem C10_leading_nan (s e m : ℕ) (amount growth_rate : ℚ)
    (hm : s ≤ m) (hme : m ≤ e)
    (hjan : ∀ k, s ≤ k → k ≤ m → calMonth k ≠ 1) :
    List.lookup m
        (MoneyFlow.future_value s e amount .monthly growth_rate .yearly) =
      some none := by
  unfold MoneyFlow.future_value
  simp only []
  rw [monthRange_append hm hme, List.map_append, ffill_all_none, List.lookup_append]
  · rw [lookup_map_self
      (fun k => ((List.lookup k (((yearStarts s e).enum).map
        (fun ti => (ti.2, amount * (Frequency.monthly.meta.per_year : ℚ) *
          (1 + growth_rate) ^ ti.1)))).map (fun v => v / 12)))
      (monthRange s m) m (mem_monthRange.mpr ⟨hm, le_refl m⟩)]
    have hnotin : m ∉ yearStarts s e := by
      intro hmem
      have := List.of_mem_filter hmem
      exact hjan m hm (le_refl m) (by simpa using this)
    have hlook := lookup_enumFrom_map_none
      (fun t => amount * (Frequency.monthly.meta.per_year : ℚ) *
        (1 + growth_rate) ^ t) (yearStarts s e) 0 m hnotin
    simp only [] at hlook
    rw [List.enum, hlook]
    rfl
  · intro p hp
    obtain ⟨k, hk, rfl⟩ := List.mem_map.mp hp
    have hkr := mem_monthRange.mp hk
    have hknotin : k ∉ yearStarts s e := by
      intro hmem
      have := List.of_mem_filter hmem
      exact hjan k hkr.1 hkr.2 (by simpa using this)
    have hlook := lookup_enumFrom_map_none
      (fun t => amount * (Frequency.monthly.meta.per_year : ℚ) *
        (1 + growth_rate) ^ t) (yearStarts s e) 0 k hknotin
    simp only [] at hlook
    simp only []
    rw [List.enum, hlook]
    rfl

theorem C10_witness :
    List.lookup 5 (MoneyFlow.future_value 1 13 3 .monthly 0 .yearly) =
      some none :=
  C10_leading_nan 1 13 5 3 0 (by decide) (by decide)
    (by
      intro k h1 h2
      simp [calMonth]
      omega)

/-! ## Year-start characterization -/

theorem filter_calMonth_range' :
    ∀ (n a : ℕ),
      (List.range' a n).filter (fun m => decide (calMonth m = 1)) =
        List.range' (a + (12 - a % 12) % 12)
          ((n - (12 - a % 12) % 12 + 11) / 12) 12
  | 0, a => by
    have h : (0 - (12 - a % 12) % 12 + 11) / 12 = 0 := by omega
    simp [h]
  | n + 1, a => by
    rw [List.range'_succ]
    by_cases h0 : a % 12 = 0
    · rw [List.filter_cons_of_pos (by simp [calMonth]; omega)]
      rw [filter_calMonth_range' n (a + 1)]
      rw [show a + 1 + (12 - (a + 1) % 12) % 12 = a + 12 by omega,
        show a + (12 - a % 12) % 12 = a by omega,
        show (n + 1 - (12 - a % 12) % 12 + 11) / 12 =
          ((n - (12 - (a + 1) % 12) % 12 + 11) / 12) + 1 by omega,
        List.range'_succ]
    · rw [List.filter_cons_of_neg (by simp [calMonth]; omega)]
      rw [filter_calMonth_range' n (a + 1)]
      rw [show a + 1 + (12 - (a + 1) % 12) % 12 = a + (12 - a % 12) % 12 by
          omega,
        show (n - (12 - (a + 1) % 12) % 12 + 11) / 12 =
          (n + 1 - (12 - a % 12) % 12 + 11) / 12 by omega]

theorem yearStarts_eq (s e : ℕ) :
    yearStarts s e = List.range' (s + (12 - s % 12) % 12)
      ((e + 1 - s - (12 - s % 12) % 12 + 11) / 12) 12 :=
  filter_calMonth_range' (e + 1 - s) s

/-! ## Forward-fill characterization over consecutive months -/

theorem ffill_fill_run (s lo hi : ℕ) (fill : ℕ → ℚ) (pre : ℕ → Option ℚ)
    (hanchor : ∀ m, lo ≤ m → m < hi →
      ((m - s) % 12 = 0 → pre m = some (fill m)) ∧
      ((m - s) % 12 ≠ 0 → pre m = none))
    (hconst : ∀ m, s ≤ m → (m + 1 - s) % 12 ≠ 0 → fill (m + 1) = fill m) :
    ∀ (n a : ℕ) (acc : Option ℚ), s ≤ a → lo ≤ a → a + n ≤ hi →
      ((a - s) % 12 = 0 ∨ acc = some (fill a)) →
      ffillSeries ((List.range' a n).map (fun m => (m, pre m))) acc =
        (List.range' a n).map (fun m => (m, some (fill m)))
  | 0, a, acc, _, _, _, _ => rfl
  | n + 1, a, acc, hs, hlo, hhi, hinv => by
    rw [List.range'_succ, List.map_cons, List.map_cons]
    by_cases h0 : (a - s) % 12 = 0
    · rw [(hanchor a hlo (by omega)).1 h0]
      show (a, some (fill a)) ::
          ffillSeries ((List.range' (a + 1) n).map (fun m => (m, pre m)))
            (some (fill a)) = _
      rw [ffill_fill_run s lo hi fill pre hanchor hconst n (a + 1)
        (some (fill a)) (by omega) (by omega) (by omega)
        (by
          by_cases h1 : (a + 1 - s) % 12 = 0
          · exact Or.inl h1
          · exact Or.inr (by rw [hconst a hs h1]))]
    · have hacc := hinv.resolve_left h0
      rw [(hanchor a hlo (by omega)).2 h0]
      show (a, acc) ::
          ffillSeries ((List.range' (a + 1) n).map (fun m => (m, pre m))) acc
            = _
      rw [hacc]
      rw [ffill_fill_run s lo hi fill pre hanchor hconst n (a + 1)
        (some (fill a)) (by omega) (by omega) (by omega)
        (by
          by_cases h1 : (a + 1 - s) % 12 = 0
          · exact Or.inl h1
          · exact Or.inr (by rw [hconst a hs h1]))]

/-- C4 (amended): for a Yearly-growth flow whose start month is a January,
the year-`t` amount is `amount * flowEventsPerYear * (1+growthRate)^t`; a
Yearly flow receives it on the year's trigger month (January) with every other
month zero, and a Monthly flow receives it divided by the unconditional
full-year divisor 12 on every month of that year (including partial last
years).  (The January-start proviso is forced: for other starts the year
amounts are anchored at the Januaries inside the range and the months before
the first January stay NaN — see the counterexample and C10.) -/
theorem C4_yearly_growth (s e : ℕ) (amount growth_rate : ℚ)
    (hjan : calMonth s = 1) :
    (∀ m ∈ monthRange s e,
      List.lookup m
          (MoneyFlow.future_value s e amount .yearly growth_rate .yearly) =
        some (some (if calMonth m = 1 then
          amount * 1 * (1 + growth_rate) ^ ((m - s) / 12) else 0))) ∧
    (∀ m ∈ monthRange s e,
      List.lookup m
          (MoneyFlow.future_value s e amount .monthly growth_rate .yearly) =
        some (some (amount * 12 * (1 + growth_rate) ^ ((m - s) / 12) / 12))) := by
  have hs0 : s % 12 = 0 := by
    simp [calMonth] at hjan
    omega
  have hys : yearStarts s e = List.range' s ((e + 1 - s + 11) / 12) 12 := by
    rw [yearStarts_eq,
      show s + (12 - s % 12) % 12 = s by omega,
      show (e + 1 - s - (12 - s % 12) % 12 + 11) / 12 = (e + 1 - s + 11) / 12 by
        omega]
  constructor
  · -- Yearly flow
    intro m hm
    obtain ⟨hsm, hme⟩ := mem_monthRange.mp hm
    have hp1 : (Frequency.yearly.meta.per_year : ℚ) = 1 := by
      norm_num [Frequency.meta, YEARLY_META]
    unfold MoneyFlow.future_value
    simp only [List.map_map, List.enum, hys, hp1]
    have hcomp :
        ((fun cell : ℕ × Option ℚ => (cell.1, some (cell.2.getD 0))) ∘
          (fun k => (k, List.lookup k
            (((List.range' s ((e + 1 - s + 11) / 12) 12).enumFrom 0).map
              (fun ti => (ti.2, amount * 1 * (1 + growth_rate) ^ ti.1)))))) =
          (fun k => (k, some ((List.lookup k
            (((List.range' s ((e + 1 - s + 11) / 12) 12).enumFrom 0).map
              (fun ti => (ti.2, amount * 1 * (1 + growth_rate) ^ ti.1)))).getD
                0))) := rfl
    rw [hcomp]
    have hself := lookup_map_self
      (fun k => some ((List.lookup k
        (((List.range' s ((e + 1 - s + 11) / 12) 12).enumFrom 0).map
          (fun ti => (ti.2, amount * 1 * (1 + growth_rate) ^ ti.1)))).getD 0))
      (monthRange s e) m hm
    simp only [] at hself
    rw [hself]
    by_cases hm1 : calMonth m = 1
    · have hmod : (m - s) % 12 = 0 := by
        simp [calMonth] at hm1
        omega
      have hlook := lookup_enumFrom_range12
        (fun t => amount * 1 * (1 + growth_rate) ^ t)
        ((e + 1 - s + 11) / 12) s 0 m hsm (by omega) hmod
      simp only [] at hlook
      rw [hlook, if_pos hm1]
      simp
    · have hnotin : m ∉ List.range' s ((e + 1 - s + 11) / 12) 12 := by
        intro hmem
        obtain ⟨i, hi, rfl⟩ := List.mem_range'.mp hmem
        exact hm1 (by simp [calMonth]; omega)
      have hlook := lookup_enumFrom_map_none
        (fun t => amount * 1 * (1 + growth_rate) ^ t)
        (List.range' s ((e + 1 - s + 11) / 12) 12) 0 m hnotin
      simp only [] at hlook
      rw [hlook, if_neg hm1]
      simp
  · -- Monthly flow
    intro m hm
    obtain ⟨hsm, hme⟩ := mem_monthRange.mp hm
    have hp12 : (Frequency.monthly.meta.per_year : ℚ) = 12 := by
      norm_num [Frequency.meta, MONTHLY_META]
    unfold MoneyFlow.future_value
    simp only [List.enum, hys, hp12]
    have hrun := ffill_fill_run s s (e + 1)
      (fun k => amount * 12 * (1 + growth_rate) ^ ((k - s) / 12) / 12)
      (fun k => (List.lookup k
        (((List.range' s ((e + 1 - s + 11) / 12) 12).enumFrom 0).map
          (fun ti => (ti.2, amount * 12 * (1 + growth_rate) ^ ti.1)))).map
            (fun v => v / 12))
      (by
        intro k hk1 hk2
        constructor
        · intro hk0
          simp only []
          have hlook := lookup_enumFrom_range12
            (fun t => amount * 12 * (1 + growth_rate) ^ t)
            ((e + 1 - s + 11) / 12) s 0 k hk1 (by omega) hk0
          simp only [] at hlook
          rw [hlook]
          simp
        · intro hk0
          simp only []
          have hnotin : k ∉ List.range' s ((e + 1 - s + 11) / 12) 12 := by
            intro hmem
            obtain ⟨i, hi, rfl⟩ := List.mem_range'.mp hmem
            omega
          have hlook := lookup_enumFrom_map_none
            (fun t => amount * 12 * (1 + growth_rate) ^ t)
            (List.range' s ((e + 1 - s + 11) / 12) 12) 0 k hnotin
          simp only [] at hlook
          rw [hlook]
          rfl)
      (by
        intro k hk hk1
        have hdiv : (k + 1 - s) / 12 = (k - s) / 12 := by omega
        simp [hdiv])
      (e + 1 - s) s none (le_refl s) (le_refl s) (by omega) (Or.inl (by omega))
    simp only [] at hrun
    unfold monthRange
    rw [hrun]
    have hself := lookup_map_self
      (fun k => some (amount * 12 * (1 + growth_rate) ^ ((k - s) / 12) / 12))
      (List.range' s (e + 1 - s)) m (by rw [List.mem_range'_1]; omega)
    simp only [] at hself
    rw [hself]

/-- C4 is false as stated for non-January starts: starting at absolute
month 1 (February), with Monthly flow, Yearly growth, amount 12 and growth
rate 0, the claim's formula gives every month of the first calendar year the
value `12 * 12 * (1+0)^0 / 12 = 12`, but the code's series has no value at the
start month (the cell is NaN, because the year anchors sit on the Januaries
inside the range and the forward fill never reaches back). -/
theorem C4_counterexample :
    List.lookup 1 (MoneyFlow.future_value 1 13 12 .monthly 0 .yearly) ≠
      some (some (12 * 12 * (1 + 0) ^ (0 : ℕ) / 12)) := by
  decide

theorem C4_witness :
    List.lookup 13 (MoneyFlow.future_value 0 13 2 .monthly 1 .yearly) =
      some (some (2 * 12 * (1 + 1) ^ ((13 - 0) / 12) / 12)) :=
  (C4_yearly_growth 0 13 2 1 (by decide)).2 13 (by decide)
